import Mathlib

/-!
Verification of the HTTP CRUD user service (cmd/server/main.go).

The development shallow-embeds the service's data-access layer and HTTP
handlers. The Postgres `users` table (schema: `id SERIAL PRIMARY KEY`,
`name TEXT NOT NULL`, `email TEXT UNIQUE NOT NULL`) is modelled as a list
of rows in arbitrary physical order together with the next value of the
SERIAL id sequence. The repository methods `GetAllUsers`, `GetUserByID`,
`CreateUser`, `UpdateUser` and `DeleteUser` are translated from the SQL
they execute and from Postgres constraint semantics; the gin handlers
registered in `registerRoutes` are translated branch by branch, including
gin's JSON rendering of Go values (a nil slice marshals to JSON `null`).
-/

/-- A row of the `users` table (`type User` in main.go). The creation
timestamp is never read by the service, so it is not modelled. -/
structure User where
  id : Int
  name : String
  email : String
deriving Repr, DecidableEq

/-- State of the `users` table: stored rows in arbitrary physical order,
plus the next value of the SERIAL id sequence. -/
structure DB where
  rows : List User
  nextId : Int
deriving Repr, DecidableEq

/-- Classified store-level failures, per the error taxonomy: `noRows` is
pgx.ErrNoRows or a zero-rows-affected write, `uniqueViolation` is a
duplicate key on `users.email`, `otherFailure` is any unclassified store
error (e.g. lost connectivity mid-request). -/
inductive StoreErr where
  | noRows
  | uniqueViolation
  | otherFailure
deriving Repr, DecidableEq

/-- Well-formedness of a table state reachable through this schema:
SERIAL ids are positive and below the sequence cursor, the primary key
makes ids distinct, and the UNIQUE constraint makes emails distinct. -/
def WF (db : DB) : Prop :=
  (∀ r ∈ db.rows, 1 ≤ r.id ∧ r.id < db.nextId) ∧
  (db.rows.map User.id).Nodup ∧
  (db.rows.map User.email).Nodup

instance (db : DB) : Decidable (WF db) := by
  unfold WF
  infer_instance

/-- Row comparison used by `ORDER BY id`. -/
def idLe (a b : User) : Prop := a.id ≤ b.id

instance : DecidableRel idLe := fun a b => inferInstanceAs (Decidable (a.id ≤ b.id))

instance : IsTotal User idLe := ⟨fun a b => Int.le_total a.id b.id⟩

instance : IsTrans User idLe := ⟨fun _ _ _ h1 h2 => le_trans h1 h2⟩

/-- Result set of `SELECT id, name, email FROM users ORDER BY id`. -/
def usersQuery (db : DB) : List User := List.insertionSort idLe db.rows

/-- One step of the scan loop in `GetAllUsers`: `users = append(users, u)`.
The accumulator is a Go slice, `none` being the nil slice that
`var users []User` starts from. -/
def goAppend (acc : Option (List User)) (u : User) : Option (List User) :=
  some (acc.getD [] ++ [u])

/-- Repository method `GetAllUsers`: runs the ordered query and appends
each row to a slice that starts nil, so an empty result set yields the nil
slice, not an empty one. -/
def GetAllUsers (db : DB) : Option (List User) :=
  (usersQuery db).foldl goAppend none

/-- Repository method `GetUserByID`: single-row `SELECT ... WHERE id=$1`;
no matching row surfaces as pgx.ErrNoRows. -/
def GetUserByID (db : DB) (id : Int) : Except StoreErr User :=
  match db.rows.find? (fun r => r.id == id) with
  | some u => Except.ok u
  | none => Except.error StoreErr.noRows

/-- Repository method `CreateUser`: transactional
`INSERT ... RETURNING id`. A duplicate email violates the UNIQUE
constraint, the transaction rolls back and no row is added; the SERIAL
sequence value is still consumed because `nextval` is not transactional
in Postgres. On success the new row is committed and the generated id
returned. -/
def CreateUser (db : DB) (name email : String) : Except StoreErr Int × DB :=
  if db.rows.any (fun r => r.email == email) then
    (Except.error StoreErr.uniqueViolation, { db with nextId := db.nextId + 1 })
  else
    (Except.ok db.nextId,
      { rows := db.rows ++ [{ id := db.nextId, name := name, email := email }],
        nextId := db.nextId + 1 })

/-- Repository method `UpdateUser`: `UPDATE users SET name=$1, email=$2
WHERE id=$3`. If no row matches the id, zero rows are affected and the
method errors ("no rows updated"); if a row matches but the new email
collides with a different row, the UNIQUE constraint rejects the write. -/
def UpdateUser (db : DB) (id : Int) (name email : String) : Except StoreErr DB :=
  if db.rows.any (fun r => r.id == id) then
    if db.rows.any (fun r => r.id != id && r.email == email) then
      Except.error StoreErr.uniqueViolation
    else
      let newRows := db.rows.map
        fun r => if r.id == id then { r with name := name, email := email } else r
      Except.ok { db with rows := newRows }
  else
    Except.error StoreErr.noRows

/-- Repository method `DeleteUser`: `DELETE FROM users WHERE id=$1`; zero
rows affected errors ("no rows deleted"). -/
def DeleteUser (db : DB) (id : Int) : Except StoreErr DB :=
  if db.rows.any (fun r => r.id == id) then
    Except.ok { db with rows := db.rows.filter (fun r => r.id != id) }
  else
    Except.error StoreErr.noRows

/-- JSON values as rendered by gin / encoding-json. -/
inductive Json where
  | null
  | bool (b : Bool)
  | num (n : Int)
  | str (s : String)
  | arr (xs : List Json)
  | obj (fields : List (String × Json))
deriving Repr

/-- Marshalling of a `User` value. -/
def marshalUser (u : User) : Json :=
  Json.obj [("id", Json.num u.id), ("name", Json.str u.name), ("email", Json.str u.email)]

/-- encoding-json marshalling of a `[]User` slice: a nil slice renders as
JSON `null`, a non-nil slice as an array. -/
def marshalUserSlice : Option (List User) → Json
  | none => Json.null
  | some us => Json.arr (us.map marshalUser)

/-- The error bodies the handlers send: `gin.H(error: msg)`. -/
def errBody (msg : String) : Json := Json.obj [("error", Json.str msg)]

/-- Model of Go `strconv.ParseInt(s, 10, 64)` digit scanning: fails on a
non-digit, otherwise accumulates the base-10 value. -/
def parseDigits : List Char → Nat → Option Nat
  | [], acc => some acc
  | c :: cs, acc =>
    if c.isDigit then parseDigits cs (acc * 10 + (c.toNat - 48)) else none

def int64Max : Int := 9223372036854775807

def int64Min : Int := -9223372036854775808

/-- Model of Go `strconv.ParseInt(s, 10, 64)`: an optional sign followed
by at least one decimal digit, with the result required to fit in a
signed 64-bit integer; anything else is an error (`none`). -/
def parseInt10 (s : String) : Option Int :=
  let split : Bool × List Char :=
    match s.data with
    | '+' :: rest => (false, rest)
    | '-' :: rest => (true, rest)
    | cs => (false, cs)
  if split.2.isEmpty then none
  else
    match parseDigits split.2 0 with
    | none => none
    | some n =>
      let v : Int := if split.1 then -(n : Int) else (n : Int)
      if int64Min ≤ v ∧ v ≤ int64Max then some v else none

/-- Handler helper `parseIDParam`: parses the `:id` path parameter with
`strconv.ParseInt(c.Param("id"), 10, 64)`. -/
def parseIDParam (idParam : String) : Option Int := parseInt10 idParam

/-- The request body accepted by POST and PUT after gin's
`ShouldBindJSON` has validated it (required name, required email-shaped
email). A request whose body fails that validation carries `none`. -/
structure UserPayload where
  name : String
  email : String
deriving Repr, DecidableEq

structure HttpResponse where
  status : Nat
  body : Json
deriving Repr

/-- Outcome of running one handler: the HTTP response, the table state
after the request, and how many data-access-layer calls were made. -/
structure HandlerOut where
  resp : HttpResponse
  db : DB
  dalCalls : Nat
deriving Repr

/-- Outcome mapping of the GET /users handler: a failed query is logged
and answered with a constant generic 500; success renders the slice. -/
def listUsersRespond : Except StoreErr (Option (List User)) → HttpResponse
  | Except.error _ => { status := 500, body := errBody "failed to fetch users" }
  | Except.ok users => { status := 200, body := marshalUserSlice users }

/-- Outcome mapping of the GET /users/:id handler: any repository error
is answered 404. -/
def getUserRespond : Except StoreErr User → HttpResponse
  | Except.error _ => { status := 404, body := errBody "user not found" }
  | Except.ok u => { status := 200, body := marshalUser u }

/-- Outcome mapping of the POST /users handler: any repository error is
logged and answered with a constant generic 500; success is 201 with the
generated id. -/
def createUserRespond : Except StoreErr Int → HttpResponse
  | Except.error _ => { status := 500, body := errBody "failed to create user" }
  | Except.ok id => { status := 201, body := Json.obj [("id", Json.num id)] }

/-- Outcome mapping of the PUT /users/:id handler: any repository error
is answered 404. -/
def updateUserRespond : Except StoreErr DB → HttpResponse
  | Except.error _ => { status := 404, body := errBody "user not found" }
  | Except.ok _ => { status := 200, body := Json.obj [("updated", Json.bool true)] }

/-- Outcome mapping of the DELETE /users/:id handler: any repository
error is answered 404. -/
def deleteUserRespond : Except StoreErr DB → HttpResponse
  | Except.error _ => { status := 404, body := errBody "user not found" }
  | Except.ok _ => { status := 200, body := Json.obj [("deleted", Json.bool true)] }

/-- GET /users handler. -/
def getUsersHandler (db : DB) : HandlerOut :=
  { resp := listUsersRespond (Except.ok (GetAllUsers db)), db := db, dalCalls := 1 }

/-- GET /users/:id handler: id validation first, then the lookup. -/
def getUserByIdHandler (db : DB) (idParam : String) : HandlerOut :=
  match parseIDParam idParam with
  | none => { resp := { status := 400, body := errBody "invalid user id" }, db := db, dalCalls := 0 }
  | some id => { resp := getUserRespond (GetUserByID db id), db := db, dalCalls := 1 }

/-- POST /users handler: body validation first, then the insert. -/
def postUsersHandler (db : DB) (payload : Option UserPayload) : HandlerOut :=
  match payload with
  | none => { resp := { status := 400, body := errBody "invalid payload" }, db := db, dalCalls := 0 }
  | some p =>
    match CreateUser db p.name p.email with
    | (r, db2) => { resp := createUserRespond r, db := db2, dalCalls := 1 }

/-- PUT /users/:id handler: id validation, then body validation, then
the update. -/
def putUsersHandler (db : DB) (idParam : String) (payload : Option UserPayload) : HandlerOut :=
  match parseIDParam idParam with
  | none => { resp := { status := 400, body := errBody "invalid user id" }, db := db, dalCalls := 0 }
  | some id =>
    match payload with
    | none => { resp := { status := 400, body := errBody "invalid payload" }, db := db, dalCalls := 0 }
    | some p =>
      match UpdateUser db id p.name p.email with
      | Except.error e => { resp := updateUserRespond (Except.error e), db := db, dalCalls := 1 }
      | Except.ok db2 => { resp := updateUserRespond (Except.ok db2), db := db2, dalCalls := 1 }

/-- DELETE /users/:id handler: id validation, then the delete. -/
def deleteUsersHandler (db : DB) (idParam : String) : HandlerOut :=
  match parseIDParam idParam with
  | none => { resp := { status := 400, body := errBody "invalid user id" }, db := db, dalCalls := 0 }
  | some id =>
    match DeleteUser db id with
    | Except.error e => { resp := deleteUserRespond (Except.error e), db := db, dalCalls := 1 }
    | Except.ok db2 => { resp := deleteUserRespond (Except.ok db2), db := db2, dalCalls := 1 }

/-- GET /healthz handler: always healthy while serving. -/
def healthzHandler : HttpResponse :=
  { status := 200, body := Json.obj [("status", Json.str "healthy")] }

/-- Outcome of the readiness probe's `Ping` on its one-second context:
success, an error, or the context deadline elapsing (which also makes
`Ping` return an error). -/
inductive PingOutcome where
  | ok
  | failed
  | timedOut
deriving Repr, DecidableEq

/-- Outcome of the GET /readyz handler: the response, plus whether the
deferred `cancel` of the probe's timeout context ran (it always does,
releasing the sub-call when the deadline elapsed). -/
structure ReadyzOut where
  resp : HttpResponse
  cancelCalled : Bool
deriving Repr

/-- GET /readyz handler: a non-ok ping (failure or elapsed timeout)
answers 503 ready=false, an ok ping answers 200 ready=true; the deferred
cancel runs on every path. -/
def readyzHandler : PingOutcome → ReadyzOut
  | PingOutcome.ok =>
    { resp := { status := 200, body := Json.obj [("ready", Json.bool true)] }, cancelCalled := true }
  | _ =>
    { resp := { status := 503, body := Json.obj [("ready", Json.bool false)] }, cancelCalled := true }

/-- The drain grace period of `srv.Shutdown`: 5 seconds. -/
def gracePeriodSeconds : Nat := 5

/-- Timestamps (in seconds) of the shutdown-path events of `main`. -/
structure ShutdownTrace where
  signalAt : Nat
  listenerStoppedAt : Nat
  poolClosedAt : Nat
  processExitAt : Nat
deriving Repr, DecidableEq

/-- Shutdown path of `main` after the termination signal at `signalAt`:
`srv.Shutdown` returns once in-flight requests have drained
(`drainNeeded` seconds) or the 5-second grace context expires, whichever
comes first; only then is `dbpool.Close()` called, and `main` returns. -/
def runShutdown (signalAt drainNeeded : Nat) : ShutdownTrace :=
  let stoppedAt := signalAt + min drainNeeded gracePeriodSeconds
  { signalAt := signalAt
    listenerStoppedAt := stoppedAt
    poolClosedAt := stoppedAt
    processExitAt := stoppedAt }

/-- The table state seeded by the schema migration: Alice and Bob, with
the SERIAL sequence standing at 3. -/
def seedDB : DB :=
  { rows := [{ id := 1, name := "Alice", email := "alice@example.com" },
             { id := 2, name := "Bob", email := "bob@example.com" }],
    nextId := 3 }

/-- The empty table state, as it stands before the seed inserts run. -/
def emptyDB : DB := { rows := [], nextId := 1 }

example : WF seedDB := by decide
example : parseInt10 "-5" = some (-5) := by decide
example : parseInt10 "abc" = none := by decide
example : parseInt10 "" = none := by decide
example : parseInt10 "9223372036854775808" = none := by decide
example : usersQuery seedDB = seedDB.rows := by decide
example : GetAllUsers { rows := [], nextId := 1 } = none := by decide

lemma find?_id_none (rows : List User) (id : Int) (h : ∀ r ∈ rows, r.id ≠ id) :
    rows.find? (fun r => r.id == id) = none :=
  List.find?_eq_none.mpr (fun r hr => by simp [h r hr])

lemma rows_any_id_false (rows : List User) (id : Int) (h : ∀ r ∈ rows, r.id ≠ id) :
    (rows.any fun r => r.id == id) = false := by
  simp only [List.any_eq_false, beq_iff_eq]
  exact h

lemma handlers404_of_no_row (db : DB) (idParam : String) (id : Int) (p : UserPayload)
    (hp : parseIDParam idParam = some id) (hid : ∀ r ∈ db.rows, r.id ≠ id) :
    getUserByIdHandler db idParam =
      { resp := { status := 404, body := errBody "user not found" }, db := db, dalCalls := 1 } ∧
    putUsersHandler db idParam (some p) =
      { resp := { status := 404, body := errBody "user not found" }, db := db, dalCalls := 1 } ∧
    deleteUsersHandler db idParam =
      { resp := { status := 404, body := errBody "user not found" }, db := db, dalCalls := 1 } := by
  have hany := rows_any_id_false db.rows id hid
  have hfind := find?_id_none db.rows id hid
  refine ⟨?_, ?_, ?_⟩ <;>
    simp [getUserByIdHandler, putUsersHandler, deleteUsersHandler, hp,
      GetUserByID, UpdateUser, DeleteUser, hany, hfind,
      getUserRespond, updateUserRespond, deleteUserRespond]

lemma foldl_goAppend_some (l acc : List User) :
    l.foldl goAppend (some acc) = some (acc ++ l) := by
  induction l generalizing acc with
  | nil => simp
  | cons x xs ih => simp [goAppend, ih]

lemma GetAllUsers_getD (db : DB) : (GetAllUsers db).getD [] = usersQuery db := by
  unfold GetAllUsers
  cases hq : usersQuery db with
  | nil => simp
  | cons x xs => simp [List.foldl_cons, goAppend, foldl_goAppend_some]

/-- C1: for every name and email, creating a user via `CreateUser` on a
well-formed table and then fetching the returned identifier via
`GetUserByID` yields a record whose name and email are identical to those
given at creation. -/
theorem c1_create_then_get (db : DB) (n e : String) (hWF : WF db)
    (id : Int) (db' : DB) (hc : CreateUser db n e = (Except.ok id, db')) :
    GetUserByID db' id = Except.ok { id := id, name := n, email := e } := by
  unfold CreateUser at hc
  by_cases hdup : (db.rows.any fun r => r.email == e) = true
  · rw [if_pos hdup] at hc
    exact absurd (congrArg Prod.fst hc) (by simp)
  · rw [if_neg hdup] at hc
    have hid : db.nextId = id := by
      have h1 := congrArg Prod.fst hc
      simpa using h1
    have hdb : db' = { rows := db.rows ++ [{ id := db.nextId, name := n, email := e }],
                       nextId := db.nextId + 1 } := (congrArg Prod.snd hc).symm
    subst hdb
    subst hid
    unfold GetUserByID
    rw [List.find?_append, find?_id_none db.rows db.nextId
      (fun r hr => by have := (hWF.1 r hr).2; omega)]
    simp [List.find?]

/-- C1 witness: creating Charlie on the seeded table and reading id 3
back returns his record. -/
theorem c1_witness :
    GetUserByID (CreateUser seedDB "Charlie" "charlie@example.com").2 3 =
      Except.ok { id := 3, name := "Charlie", email := "charlie@example.com" } :=
  c1_create_then_get seedDB "Charlie" "charlie@example.com" (by decide) 3
    (CreateUser seedDB "Charlie" "charlie@example.com").2 rfl

/-- C2: for every identifier matching no stored row, `GetUserByID`,
`UpdateUser` and `DeleteUser` report not-found (the writes via zero rows
affected), and the GET/PUT/DELETE handlers answer 404, never 500. -/
theorem c2_not_found (db : DB) (idParam : String) (id : Int) (p : UserPayload)
    (hp : parseIDParam idParam = some id) (hid : ∀ r ∈ db.rows, r.id ≠ id) :
    GetUserByID db id = Except.error StoreErr.noRows ∧
    UpdateUser db id p.name p.email = Except.error StoreErr.noRows ∧
    DeleteUser db id = Except.error StoreErr.noRows ∧
    getUserByIdHandler db idParam =
      { resp := { status := 404, body := errBody "user not found" }, db := db, dalCalls := 1 } ∧
    putUsersHandler db idParam (some p) =
      { resp := { status := 404, body := errBody "user not found" }, db := db, dalCalls := 1 } ∧
    deleteUsersHandler db idParam =
      { resp := { status := 404, body := errBody "user not found" }, db := db, dalCalls := 1 } := by
  have hany := rows_any_id_false db.rows id hid
  have hfind := find?_id_none db.rows id hid
  obtain ⟨h1, h2, h3⟩ := handlers404_of_no_row db idParam id p hp hid
  exact ⟨by simp [GetUserByID, hfind], by simp [UpdateUser, hany], by simp [DeleteUser, hany],
    h1, h2, h3⟩

/-- C2 witness: identifier 99 is absent from the seeded table, and all
three endpoints answer 404. -/
theorem c2_witness :
    GetUserByID seedDB 99 = Except.error StoreErr.noRows ∧
    UpdateUser seedDB 99 "Zed" "zed@example.com" = Except.error StoreErr.noRows ∧
    DeleteUser seedDB 99 = Except.error StoreErr.noRows ∧
    getUserByIdHandler seedDB "99" =
      { resp := { status := 404, body := errBody "user not found" }, db := seedDB, dalCalls := 1 } ∧
    putUsersHandler seedDB "99" (some { name := "Zed", email := "zed@example.com" }) =
      { resp := { status := 404, body := errBody "user not found" }, db := seedDB, dalCalls := 1 } ∧
    deleteUsersHandler seedDB "99" =
      { resp := { status := 404, body := errBody "user not found" }, db := seedDB, dalCalls := 1 } :=
  c2_not_found seedDB "99" 99 { name := "Zed", email := "zed@example.com" } (by decide) (by decide)

/-- C3: `CreateUser` is atomic. Any failing create leaves the stored rows
unchanged (the transaction rolls back; only the non-transactional SERIAL
cursor advances), and after a successful create a second create reusing
the same email fails with a uniqueness violation, leaving every row -
in particular the first record - intact. -/
theorem c3_create_atomic (db : DB) (n e n2 : String) (id : Int) (db' : DB)
    (hc : CreateUser db n e = (Except.ok id, db')) :
    (∀ m f err, (CreateUser db m f).1 = Except.error err → (CreateUser db m f).2.rows = db.rows) ∧
    (CreateUser db' n2 e).1 = Except.error StoreErr.uniqueViolation ∧
    (CreateUser db' n2 e).2.rows = db'.rows ∧
    { id := id, name := n, email := e } ∈ db'.rows := by
  have hgen : ∀ m f err, (CreateUser db m f).1 = Except.error err →
      (CreateUser db m f).2.rows = db.rows := by
    intro m f err h
    unfold CreateUser at h ⊢
    by_cases hdup : (db.rows.any fun r => r.email == f) = true
    · rw [if_pos hdup]
    · rw [if_neg hdup] at h
      simp at h
  unfold CreateUser at hc
  by_cases hdup : (db.rows.any fun r => r.email == e) = true
  · rw [if_pos hdup] at hc
    exact absurd (congrArg Prod.fst hc) (by simp)
  · rw [if_neg hdup] at hc
    have hid : db.nextId = id := by simpa using congrArg Prod.fst hc
    have hdb : db' = { rows := db.rows ++ [{ id := db.nextId, name := n, email := e }],
                       nextId := db.nextId + 1 } := (congrArg Prod.snd hc).symm
    subst hdb
    subst hid
    refine ⟨hgen, ?_, ?_, ?_⟩
    · simp [CreateUser]
    · simp [CreateUser]
    · simp

/-- C3 witness: after creating Charlie on the seeded table, a second
create reusing his email fails and mutates no row. -/
theorem c3_witness :
    (∀ m f err, (CreateUser seedDB m f).1 = Except.error err →
      (CreateUser seedDB m f).2.rows = seedDB.rows) ∧
    (CreateUser (CreateUser seedDB "Charlie" "charlie@example.com").2 "Imposter" "charlie@example.com").1 =
      Except.error StoreErr.uniqueViolation ∧
    (CreateUser (CreateUser seedDB "Charlie" "charlie@example.com").2 "Imposter" "charlie@example.com").2.rows =
      (CreateUser seedDB "Charlie" "charlie@example.com").2.rows ∧
    { id := 3, name := "Charlie", email := "charlie@example.com" } ∈
      (CreateUser seedDB "Charlie" "charlie@example.com").2.rows :=
  c3_create_atomic seedDB "Charlie" "charlie@example.com" "Imposter" 3
    (CreateUser seedDB "Charlie" "charlie@example.com").2 rfl

/-- C4: for every stored state, GET /users returns the users sorted
ascending by identifier - the result slice is a permutation of the stored
rows, sorted by id, rendered with status 200, regardless of the history
that produced the state. -/
theorem c4_list_sorted (db : DB) :
    List.Sorted idLe ((GetAllUsers db).getD []) ∧
    ((GetAllUsers db).getD []).Perm db.rows ∧
    (getUsersHandler db).resp = { status := 200, body := marshalUserSlice (GetAllUsers db) } := by
  rw [GetAllUsers_getD]
  exact ⟨List.sorted_insertionSort idLe db.rows, List.perm_insertionSort idLe db.rows, rfl⟩

/-- C5: a request with a non-numeric path identifier, or a body that
fails bind validation, is answered 400 with no data-access-layer call and
the table state unchanged. -/
theorem c5_validation_rejects (db : DB) (s t : String) (id : Int)
    (hs : parseIDParam s = none) (ht : parseIDParam t = some id) (b : Option UserPayload) :
    getUserByIdHandler db s =
      { resp := { status := 400, body := errBody "invalid user id" }, db := db, dalCalls := 0 } ∧
    putUsersHandler db s b =
      { resp := { status := 400, body := errBody "invalid user id" }, db := db, dalCalls := 0 } ∧
    deleteUsersHandler db s =
      { resp := { status := 400, body := errBody "invalid user id" }, db := db, dalCalls := 0 } ∧
    postUsersHandler db none =
      { resp := { status := 400, body := errBody "invalid payload" }, db := db, dalCalls := 0 } ∧
    putUsersHandler db t none =
      { resp := { status := 400, body := errBody "invalid payload" }, db := db, dalCalls := 0 } := by
  refine ⟨?_, ?_, ?_, rfl, ?_⟩ <;>
    simp [getUserByIdHandler, putUsersHandler, deleteUsersHandler, hs, ht]

/-- C5 witness: the non-numeric identifier "abc" and a rejected body are
both answered 400 on the seeded table with no store interaction. -/
theorem c5_witness :
    getUserByIdHandler seedDB "abc" =
      { resp := { status := 400, body := errBody "invalid user id" }, db := seedDB, dalCalls := 0 } ∧
    putUsersHandler seedDB "abc" (some { name := "Zed", email := "zed@example.com" }) =
      { resp := { status := 400, body := errBody "invalid user id" }, db := seedDB, dalCalls := 0 } ∧
    deleteUsersHandler seedDB "abc" =
      { resp := { status := 400, body := errBody "invalid user id" }, db := seedDB, dalCalls := 0 } ∧
    postUsersHandler seedDB none =
      { resp := { status := 400, body := errBody "invalid payload" }, db := seedDB, dalCalls := 0 } ∧
    putUsersHandler seedDB "7" none =
      { resp := { status := 400, body := errBody "invalid payload" }, db := seedDB, dalCalls := 0 } :=
  c5_validation_rejects seedDB "abc" "7" 7 (by decide) (by decide)
    (some { name := "Zed", email := "zed@example.com" })

/-- C6 counterexample: on the seeded table, updating Alice's email to
Bob's is a uniqueness violation (a write conflict), yet the PUT handler
answers 404, not the 500 the claim requires of every endpoint that
reaches the store. -/
theorem c6_counterexample :
    UpdateUser seedDB 1 "Alice" "bob@example.com" = Except.error StoreErr.uniqueViolation ∧
    (putUsersHandler seedDB "1" (some { name := "Alice", email := "bob@example.com" })).resp.status = 404 ∧
    ¬ (putUsersHandler seedDB "1" (some { name := "Alice", email := "bob@example.com" })).resp.status = 500 := by
  refine ⟨rfl, rfl, by decide⟩

/-- C6 amended: only the GET /users and POST /users handlers map store
failures to a generic 500 whose body is a constant carrying no internal
detail; the GET/PUT/DELETE /users/:id handlers map every store failure,
write conflicts and unclassified errors included, to 404. -/
theorem c6_error_mapping (e : StoreErr) :
    listUsersRespond (Except.error e) = { status := 500, body := errBody "failed to fetch users" } ∧
    createUserRespond (Except.error e) = { status := 500, body := errBody "failed to create user" } ∧
    getUserRespond (Except.error e) = { status := 404, body := errBody "user not found" } ∧
    updateUserRespond (Except.error e) = { status := 404, body := errBody "user not found" } ∧
    deleteUserRespond (Except.error e) = { status := 404, body := errBody "user not found" } :=
  ⟨rfl, rfl, rfl, rfl, rfl⟩

/-- C7: the readiness handler answers 200 ready=true exactly when the
bounded ping succeeds; a failed or timed-out ping is answered 503
ready=false, and the deferred cancel of the probe context runs on every
path. -/
theorem c7_readyz (p : PingOutcome) :
    ((readyzHandler p).resp.status = 200 ↔ p = PingOutcome.ok) ∧
    (p = PingOutcome.ok →
      readyzHandler p = { resp := { status := 200, body := Json.obj [("ready", Json.bool true)] },
                          cancelCalled := true }) ∧
    (p ≠ PingOutcome.ok →
      readyzHandler p = { resp := { status := 503, body := Json.obj [("ready", Json.bool false)] },
                          cancelCalled := true }) ∧
    (readyzHandler p).cancelCalled = true := by
  cases p <;> simp [readyzHandler]

/-- C7 witness: a timed-out ping is answered 503 ready=false and a
successful ping 200. -/
theorem c7_witness :
    readyzHandler PingOutcome.timedOut =
      { resp := { status := 503, body := Json.obj [("ready", Json.bool false)] },
        cancelCalled := true } ∧
    (readyzHandler PingOutcome.ok).resp.status = 200 :=
  ⟨(c7_readyz PingOutcome.timedOut).2.2.1 (by decide),
   (c7_readyz PingOutcome.ok).1.mpr rfl⟩

/-- C8 counterexample: on the empty table GET /users does answer 200, but
its body is JSON null - Go marshals the nil slice built by the scan loop
to null - not the empty JSON array the claim states. -/
theorem c8_counterexample :
    (getUsersHandler emptyDB).resp.status = 200 ∧
    (getUsersHandler emptyDB).resp.body = Json.null ∧
    ¬ (getUsersHandler emptyDB).resp.body = Json.arr [] := by
  refine ⟨rfl, rfl, fun h => ?_⟩
  have : Json.null = Json.arr [] := h
  exact Json.noConfusion this

/-- C8 amended: when the table is empty, the query yields the empty
result set and `GetAllUsers` the nil slice with no error, and the handler
answers 200 whose body is JSON null (the marshalling of a nil Go slice)
rather than an empty array. -/
theorem c8_empty_table (db : DB) (h : db.rows = []) :
    usersQuery db = [] ∧
    GetAllUsers db = none ∧
    (getUsersHandler db).resp.status = 200 ∧
    (getUsersHandler db).resp.body = Json.null := by
  have hq : usersQuery db = [] := by simp [usersQuery, h]
  have hg : GetAllUsers db = none := by simp [GetAllUsers, hq]
  exact ⟨hq, hg, rfl, by simp [getUsersHandler, listUsersRespond, hg, marshalUserSlice]⟩

/-- C8 witness: the amended statement evaluated on the empty table. -/
theorem c8_witness :
    usersQuery emptyDB = [] ∧
    GetAllUsers emptyDB = none ∧
    (getUsersHandler emptyDB).resp.status = 200 ∧
    (getUsersHandler emptyDB).resp.body = Json.null :=
  c8_empty_table emptyDB rfl

/-- C9: during shutdown the pool is closed exactly when the listener has
either drained its in-flight requests or the 5-second grace period has
elapsed, whichever comes first - never earlier - and the process exits
only after the close. -/
theorem c9_shutdown_order (signalAt drainNeeded : Nat) :
    (runShutdown signalAt drainNeeded).poolClosedAt =
      signalAt + min drainNeeded gracePeriodSeconds ∧
    (runShutdown signalAt drainNeeded).listenerStoppedAt ≤
      (runShutdown signalAt drainNeeded).poolClosedAt ∧
    (runShutdown signalAt drainNeeded).poolClosedAt ≤
      (runShutdown signalAt drainNeeded).processExitAt ∧
    gracePeriodSeconds = 5 :=
  ⟨rfl, le_refl _, le_refl _, rfl⟩

/-- C10: path-identifier validation accepts signed 64-bit decimals,
including zero and negatives such as "-5"; on a well-formed table (whose
SERIAL ids are all positive) a non-positive identifier passes validation,
reaches the data-access layer (one call) and is answered 404, not 400. -/
theorem c10_nonpositive_id (db : DB) (hWF : WF db) (idParam : String) (id : Int)
    (hp : parseIDParam idParam = some id) (hle : id ≤ 0) (p : UserPayload) :
    parseInt10 "-5" = some (-5) ∧
    parseInt10 "0" = some 0 ∧
    getUserByIdHandler db idParam =
      { resp := { status := 404, body := errBody "user not found" }, db := db, dalCalls := 1 } ∧
    putUsersHandler db idParam (some p) =
      { resp := { status := 404, body := errBody "user not found" }, db := db, dalCalls := 1 } ∧
    deleteUsersHandler db idParam =
      { resp := { status := 404, body := errBody "user not found" }, db := db, dalCalls := 1 } := by
  have hid : ∀ r ∈ db.rows, r.id ≠ id := fun r hr => by
    have := (hWF.1 r hr).1
    omega
  obtain ⟨h1, h2, h3⟩ := handlers404_of_no_row db idParam id p hp hid
  exact ⟨by decide, by decide, h1, h2, h3⟩

/-- C10 witness: the identifier "-5" on the seeded table passes
validation, reaches the store and is answered 404 by all three
endpoints. -/
theorem c10_witness :
    parseInt10 "-5" = some (-5) ∧
    parseInt10 "0" = some 0 ∧
    getUserByIdHandler seedDB "-5" =
      { resp := { status := 404, body := errBody "user not found" }, db := seedDB, dalCalls := 1 } ∧
    putUsersHandler seedDB "-5" (some { name := "Zed", email := "zed@example.com" }) =
      { resp := { status := 404, body := errBody "user not found" }, db := seedDB, dalCalls := 1 } ∧
    deleteUsersHandler seedDB "-5" =
      { resp := { status := 404, body := errBody "user not found" }, db := seedDB, dalCalls := 1 } :=
  c10_nonpositive_id seedDB (by decide) "-5" (-5) (by decide) (by decide)
    { name := "Zed", email := "zed@example.com" }
